import Mathlib

/-!
Verification of the RaceBox Mini telemetry library: a shallow embedding of
its checksum validator, binary frame decoder, record accessors, and the
BLE session-management control flow, with theorems checking the
natural-language specification against the embedded code.

Bytes are modelled as `Nat` reduced mod 256 where the source uses `u8`
wrapping arithmetic; signed machine integers are decoded to `Int` by
explicit two's-complement reinterpretation.  Source operations that can
panic are embedded as `Option`/`Except` values, with `none` (or a
dedicated outcome) standing for a panic.
-/

set_option maxRecDepth 8000

namespace RbMini

/-! ## Checksum validator (`rb_checksum` in `src/message.rs` / `src/lib.rs`) -/

/-- One step of the UBX-style checksum: `CK_A = CK_A + byte (mod 256)`,
`CK_B = CK_B + CK_A (mod 256)` (the source uses `u8::overflowing_add`). -/
def ck_step (p : Nat × Nat) (b : Nat) : Nat × Nat :=
  ((p.1 + b) % 256, (p.2 + (p.1 + b) % 256) % 256)

/-- Embeds `rb_checksum(raw: &[u8]) -> bool`.  The source computes
`raw.len() - 2` on an unsigned length and indexes `raw[raw.len()-2]` and
`raw[raw.len()-1]`; for `raw.len() < 2` this panics (debug: subtraction
overflow; release: out-of-bounds index), modelled as `none`.  Otherwise it
folds `ck_step` over `raw.iter().take(raw.len()-2).skip(2)` starting from
`(0, 0)` and compares the two accumulators with the last two bytes. -/
def rb_checksum (raw : List Nat) : Option Bool :=
  if raw.length < 2 then none
  else
    let ck := ((raw.take (raw.length - 2)).drop 2).foldl ck_step (0, 0)
    some (decide (ck.1 = raw.getD (raw.length - 2) 0 ∧
                  ck.2 = raw.getD (raw.length - 1) 0))

/-- The spec's accumulator computation, written from the spec's words:
two byte-wide accumulators initialized to 0, updated for every byte in
order as `ck_a = ck_a + byte (mod 256)`; `ck_b = ck_b + ck_a (mod 256)`. -/
def spec_ck (bytes : List Nat) : Nat × Nat :=
  bytes.foldl
    (fun p byte => ((p.1 + byte) % 256, (p.2 + (p.1 + byte) % 256) % 256))
    (0, 0)

/-- The spec's checksum validator, written from the spec's words: run the
accumulators over `frame[2 .. len-2]` and accept iff `ck_a` equals
`frame[len-2]` and `ck_b` equals `frame[len-1]`. -/
def validate_spec (frame : List Nat) : Bool :=
  let ck := spec_ck ((frame.drop 2).take (frame.length - 4))
  decide (ck.1 = frame.getD (frame.length - 2) 0 ∧
          ck.2 = frame.getD (frame.length - 1) 0)

/-- The 88-byte reference frame from the source's tests (sync, class/id and
length header, 80-byte payload, 2 checksum bytes). -/
def refFrame : List Nat :=
  [0xB5, 0x62, 0xFF, 0x01, 0x50, 0x00, 0xA0, 0xE7, 0x0C, 0x07, 0xE6, 0x07,
   0x01, 0x0A, 0x08, 0x33, 0x08, 0x37, 0x19, 0x00, 0x00, 0x00, 0x2A, 0xAD,
   0x4D, 0x0E, 0x03, 0x01, 0xEA, 0x0B, 0xC6, 0x93, 0xE1, 0x0D, 0x3B, 0x37,
   0x6F, 0x19, 0x61, 0x8C, 0x09, 0x00, 0x0F, 0x01, 0x09, 0x00, 0x9C, 0x03,
   0x00, 0x00, 0x2C, 0x07, 0x00, 0x00, 0x23, 0x00, 0x00, 0x00, 0x00, 0x00,
   0x00, 0x00, 0xD0, 0x00, 0x00, 0x00, 0x88, 0xA9, 0xDD, 0x00, 0x2C, 0x01,
   0x00, 0x59, 0xFD, 0xFF, 0x71, 0x00, 0xCE, 0x03, 0x2F, 0xFF, 0x56, 0x00,
   0xFC, 0xFF, 0x06, 0xDB]

/-- The reference frame with its trailing two checksum bytes replaced by
`FF FF`. -/
def refFrameTampered : List Nat :=
  (refFrame.take 86) ++ [0xFF, 0xFF]

theorem take_drop_eq (raw : List Nat) :
    (raw.take (raw.length - 2)).drop 2 = (raw.drop 2).take (raw.length - 4) := by
  rw [List.drop_take]
  congr 1

/-- C1: for every frame of length at least 4, `rb_checksum` returns (without
faulting) exactly the spec's verdict: the two mod-256 accumulators run over
`frame[2 .. len-2]` and the result is true iff they equal the last two
bytes; in particular it accepts the reference frame and rejects the frame
whose last two bytes are replaced by `FF FF`. -/
theorem rb_checksum_matches_spec (raw : List Nat) (h : 4 ≤ raw.length) :
    rb_checksum raw = some (validate_spec raw) ∧
    rb_checksum refFrame = some true ∧
    rb_checksum refFrameTampered = some false := by
  refine ⟨?_, by decide, by decide⟩
  have h2 : ¬ raw.length < 2 := by omega
  simp only [rb_checksum, validate_spec, spec_ck, if_neg h2, take_drop_eq]
  rfl

/-- Witness for C1 at the concrete 4-byte frame `[0, 0, 0, 0]`. -/
theorem rb_checksum_matches_spec_witness :
    4 ≤ ([0, 0, 0, 0] : List Nat).length ∧
    (rb_checksum [0, 0, 0, 0] = some (validate_spec [0, 0, 0, 0]) ∧
     rb_checksum refFrame = some true ∧
     rb_checksum refFrameTampered = some false) :=
  ⟨by decide, rb_checksum_matches_spec [0, 0, 0, 0] (by decide)⟩

/-- C3: evaluating `rb_checksum` at frames shorter than 4 bytes: the empty
frame and the 1-byte frame panic (the unsigned `raw.len() - 2` underflows),
and the 2-byte all-zero frame is accepted as valid instead of being
rejected. -/
theorem rb_checksum_short_frames :
    rb_checksum ([] : List Nat) = none ∧
    rb_checksum [0x00] = none ∧
    rb_checksum [0x00, 0x00] = some true := by
  decide

/-- C10: for frames of length exactly 2 or 3, the summed byte range is
empty, both accumulators stay 0, and the validator accepts iff the last two
bytes are both zero; in particular `[0x00, 0x00]` is accepted. -/
theorem rb_checksum_tiny_frames (raw : List Nat)
    (h : raw.length = 2 ∨ raw.length = 3) :
    (rb_checksum raw = some true ↔
      (raw.getD (raw.length - 2) 0 = 0 ∧ raw.getD (raw.length - 1) 0 = 0)) ∧
    rb_checksum [0x00, 0x00] = some true := by
  refine ⟨?_, by decide⟩
  have h2 : ¬ raw.length < 2 := by omega
  have hempty : (raw.take (raw.length - 2)).drop 2 = ([] : List Nat) := by
    apply List.drop_eq_nil_of_le
    have := raw.length_take (raw.length - 2)
    omega
  simp only [rb_checksum, if_neg h2, hempty, List.foldl_nil]
  constructor
  · intro hsome
    have hb := Option.some.inj hsome
    have := of_decide_eq_true hb
    exact ⟨(this.1).symm, (this.2).symm⟩
  · intro hz
    rw [hz.1, hz.2]
    decide

/-- Witness for C10 at the concrete 2-byte frame `[0, 0]`. -/
theorem rb_checksum_tiny_frames_witness :
    (([0x00, 0x00] : List Nat).length = 2 ∨
     ([0x00, 0x00] : List Nat).length = 3) ∧
    ((rb_checksum [0x00, 0x00] = some true ↔
       (([0x00, 0x00] : List Nat).getD 0 0 = 0 ∧
        ([0x00, 0x00] : List Nat).getD 1 0 = 0)) ∧
     rb_checksum [0x00, 0x00] = some true) :=
  ⟨Or.inl rfl, rb_checksum_tiny_frames [0x00, 0x00] (Or.inl rfl)⟩

/-! ## Record model and frame decoder (`src/message.rs`) -/

/-- `RbHeader` from the source: sync word, message class/id word, payload
length (all `u16`).  The source field `class` is a Lean keyword and is
embedded as `classId`. -/
structure RbHeader where
  start : Nat
  classId : Nat
  length : Nat
deriving DecidableEq, Repr

/-- `Coordinates` from the source: raw longitude and latitude, `i32`,
scaled by 10^7. -/
structure Coordinates where
  longitude : Int
  latitude : Int
deriving DecidableEq, Repr

/-- `Datetime` from the source: `year: u16`, the rest `u8`. -/
structure Datetime where
  year : Nat
  month : Nat
  day : Nat
  hour : Nat
  minute : Nat
  second : Nat
deriving DecidableEq, Repr

/-- `RbChecksum` from the source: the trailing checksum word (`u16`,
deserialized little-endian from the frame's last two bytes). -/
structure RbChecksum where
  value : Nat
deriving DecidableEq, Repr

/-- `RbMessage` from the source, field for field and in declaration order
(the order fixes the binary layout used by `bincode`). -/
structure RbMessage where
  header : RbHeader
  itow : Nat
  datetime : Datetime
  validity : Nat
  time_accuracy : Nat
  nanoseconds : Int
  fix_status : Nat
  fix_status_flags : Nat
  date_time_flags : Nat
  number_of_svs : Nat
  coordinates : Coordinates
  wgs_altitude : Int
  msl_altitude : Int
  horizontal_accuracy : Nat
  vertical_accuracy : Nat
  speed : Int
  heading : Int
  speed_accuracy : Nat
  heading_accuracy : Nat
  pdop : Nat
  lat_lon_flags : Nat
  battery_status : Nat
  g_force_x : Int
  g_force_y : Int
  g_force_z : Int
  rot_rate_x : Int
  rot_rate_y : Int
  rot_rate_z : Int
  checksum : RbChecksum
deriving DecidableEq, Repr

/-- `RbMessage::new()` / the `Default` impl from the source: all fields
zero. -/
def rbMessageNew : RbMessage :=
  { header := ⟨0, 0, 0⟩
    itow := 0
    datetime := ⟨0, 0, 0, 0, 0, 0⟩
    validity := 0
    time_accuracy := 0
    nanoseconds := 0
    fix_status := 0
    fix_status_flags := 0
    date_time_flags := 0
    number_of_svs := 0
    coordinates := ⟨0, 0⟩
    wgs_altitude := 0
    msl_altitude := 0
    horizontal_accuracy := 0
    vertical_accuracy := 0
    speed := 0
    heading := 0
    speed_accuracy := 0
    heading_accuracy := 0
    pdop := 0
    lat_lon_flags := 0
    battery_status := 0
    g_force_x := 0
    g_force_y := 0
    g_force_z := 0
    rot_rate_x := 0
    rot_rate_y := 0
    rot_rate_z := 0
    checksum := ⟨0⟩ }

/-- Byte `i` of a buffer (0 for out-of-range reads; the decoder only uses
in-range offsets). -/
def byteAt (raw : List Nat) (i : Nat) : Nat :=
  raw.getD i 0 % 256

/-- Little-endian `u16` at offset `i`. -/
def readU16 (raw : List Nat) (i : Nat) : Nat :=
  byteAt raw i + 256 * byteAt raw (i + 1)

/-- Little-endian `u32` at offset `i`. -/
def readU32 (raw : List Nat) (i : Nat) : Nat :=
  byteAt raw i + 256 * byteAt raw (i + 1) + 65536 * byteAt raw (i + 2) +
    16777216 * byteAt raw (i + 3)

/-- Two's-complement reinterpretation of a 16-bit value. -/
def toI16 (n : Nat) : Int :=
  if n < 32768 then (n : Int) else (n : Int) - 65536

/-- Two's-complement reinterpretation of a 32-bit value. -/
def toI32 (n : Nat) : Int :=
  if n < 2147483648 then (n : Int) else (n : Int) - 4294967296

/-- Little-endian `i16` at offset `i`. -/
def readI16 (raw : List Nat) (i : Nat) : Int :=
  toI16 (readU16 raw i)

/-- Little-endian `i32` at offset `i`. -/
def readI32 (raw : List Nat) (i : Nat) : Int :=
  toI32 (readU32 raw i)

/-- Embeds `decode_rb_message(raw: &[u8]) -> RbMessage`, i.e.
`bincode::deserialize::<RbMessage>(raw).unwrap()`.  With bincode's default
options every field is fixed-width little-endian and read sequentially in
declaration order, so the record occupies the first 88 bytes; trailing
bytes are ignored and a buffer shorter than 88 bytes makes `deserialize`
fail, which the source immediately `unwrap`s into a panic — modelled as
`none`. -/
def decode_rb_message (raw : List Nat) : Option RbMessage :=
  if raw.length < 88 then none
  else some
    { header := ⟨readU16 raw 0, readU16 raw 2, readU16 raw 4⟩
      itow := readU32 raw 6
      datetime := ⟨readU16 raw 10, byteAt raw 12, byteAt raw 13,
                   byteAt raw 14, byteAt raw 15, byteAt raw 16⟩
      validity := byteAt raw 17
      time_accuracy := readU32 raw 18
      nanoseconds := readI32 raw 22
      fix_status := byteAt raw 26
      fix_status_flags := byteAt raw 27
      date_time_flags := byteAt raw 28
      number_of_svs := byteAt raw 29
      coordinates := ⟨readI32 raw 30, readI32 raw 34⟩
      wgs_altitude := readI32 raw 38
      msl_altitude := readI32 raw 42
      horizontal_accuracy := readU32 raw 46
      vertical_accuracy := readU32 raw 50
      speed := readI32 raw 54
      heading := readI32 raw 58
      speed_accuracy := readU32 raw 62
      heading_accuracy := readU32 raw 66
      pdop := readU16 raw 70
      lat_lon_flags := byteAt raw 72
      battery_status := byteAt raw 73
      g_force_x := readI16 raw 74
      g_force_y := readI16 raw 76
      g_force_z := readI16 raw 78
      rot_rate_x := readI16 raw 80
      rot_rate_y := readI16 raw 82
      rot_rate_z := readI16 raw 84
      checksum := ⟨readU16 raw 86⟩ }

/-! ## Accessors on `RbMessage` (`impl RbMessage` in `src/message.rs`) -/

/-- `is_valid_date`: `validity & 1 == 1`. -/
def RbMessage.is_valid_date (m : RbMessage) : Bool :=
  if m.validity &&& 1 = 1 then true else false

/-- `is_valid_time`: `validity >> 1 & 1 == 1`. -/
def RbMessage.is_valid_time (m : RbMessage) : Bool :=
  if m.validity >>> 1 &&& 1 = 1 then true else false

/-- `is_fully_resolved`: `validity >> 2 & 1 == 1`. -/
def RbMessage.is_fully_resolved (m : RbMessage) : Bool :=
  if m.validity >>> 2 &&& 1 = 1 then true else false

/-- `is_valid_magnetic_declination`: `validity >> 3 & 1 == 1`. -/
def RbMessage.is_valid_magnetic_declination (m : RbMessage) : Bool :=
  if m.validity >>> 3 &&& 1 = 1 then true else false

/-- `is_valid_fix`: `fix_status_flags & 1 == 1`. -/
def RbMessage.is_valid_fix (m : RbMessage) : Bool :=
  if m.fix_status_flags &&& 1 = 1 then true else false

/-- `is_differential_corrections_applied`: `fix_status_flags >> 1 & 1 == 1`. -/
def RbMessage.is_differential_corrections_applied (m : RbMessage) : Bool :=
  if m.fix_status_flags >>> 1 &&& 1 = 1 then true else false

/-- `is_valid_heading`: `fix_status_flags >> 5 & 1 == 1`. -/
def RbMessage.is_valid_heading (m : RbMessage) : Bool :=
  if m.fix_status_flags >>> 5 &&& 1 = 1 then true else false

/-- `is_confirmation_datetime_validity`: `date_time_flags >> 4 & 1 == 1`. -/
def RbMessage.is_confirmation_datetime_validity (m : RbMessage) : Bool :=
  if m.date_time_flags >>> 4 &&& 1 = 1 then true else false

/-- `is_confirmed_utc_date_validty`: `date_time_flags >> 5 & 1 == 1`. -/
def RbMessage.is_confirmed_utc_date_validty (m : RbMessage) : Bool :=
  if m.date_time_flags >>> 5 &&& 1 = 1 then true else false

/-- `is_confirmed_utc_time_validty`: `date_time_flags >> 6 & 1 == 1`. -/
def RbMessage.is_confirmed_utc_time_validty (m : RbMessage) : Bool :=
  if m.date_time_flags >>> 6 &&& 1 = 1 then true else false

/-- `is_valid_position`, verbatim from the source: it tests
`self.date_time_flags & 1` (not `lat_lon_flags`) and returns `false` when
that bit is set. -/
def RbMessage.is_valid_position (m : RbMessage) : Bool :=
  if m.date_time_flags &&& 1 = 1 then false else true

/-- The `speed()` accessor: `self.speed as f32 * 0.0036` (km/h); the `f32`
arithmetic is embedded as exact rational arithmetic. -/
def RbMessage.speed_kph (m : RbMessage) : ℚ :=
  (m.speed : ℚ) * (36 / 10000)

/-- The record obtained by decoding the reference frame — every field value
matches the source's `test_decode_rb_message` expectations. -/
def refRecord : RbMessage :=
  { header := ⟨0x62B5, 0x01FF, 80⟩
    itow := 118286240
    datetime := ⟨2022, 1, 10, 8, 51, 8⟩
    validity := 0x37
    time_accuracy := 25
    nanoseconds := 239971626
    fix_status := 3
    fix_status_flags := 1
    date_time_flags := 0xEA
    number_of_svs := 11
    coordinates := ⟨232887238, 426719035⟩
    wgs_altitude := 625761
    msl_altitude := 590095
    horizontal_accuracy := 924
    vertical_accuracy := 1836
    speed := 35
    heading := 0
    speed_accuracy := 208
    heading_accuracy := 14526856
    pdop := 300
    lat_lon_flags := 0
    battery_status := 89
    g_force_x := -3
    g_force_y := 113
    g_force_z := 974
    rot_rate_x := -209
    rot_rate_y := 86
    rot_rate_z := -4
    checksum := ⟨0xDB06⟩ }

/-- C2: decoding the reference frame yields exactly `refRecord`, whose
fields carry the claimed values: `itow = 118286240`, the 2022-01-10
08:51:08 datetime, `fix_status = 3`, `number_of_svs = 11`, raw longitude
`232887238`, raw latitude `426719035`, `msl_altitude = 590095`, raw speed
`35` (so the speed accessor yields 0.126 km/h), `pdop = 300`, and the
trailing checksum bytes `0x06`, `0xDB` (little-endian word `0xDB06`). -/
theorem decode_reference_frame :
    decode_rb_message refFrame = some refRecord ∧
    refRecord.itow = 118286240 ∧
    refRecord.datetime = ⟨2022, 1, 10, 8, 51, 8⟩ ∧
    refRecord.fix_status = 3 ∧
    refRecord.number_of_svs = 11 ∧
    refRecord.coordinates.longitude = 232887238 ∧
    refRecord.coordinates.latitude = 426719035 ∧
    refRecord.msl_altitude = 590095 ∧
    refRecord.speed = 35 ∧
    refRecord.speed_kph = 126 / 1000 ∧
    refRecord.pdop = 300 ∧
    refRecord.checksum.value % 256 = 0x06 ∧
    refRecord.checksum.value / 256 = 0xDB := by
  refine ⟨by decide, rfl, rfl, rfl, rfl, rfl, rfl, rfl, rfl, ?_, rfl, rfl, rfl⟩
  norm_num [RbMessage.speed_kph, refRecord]

/-- C4: for every buffer shorter than the minimum decodable record length
(88 bytes), `decode_rb_message` produces no record: the underlying
deserialization fails and the source's `unwrap()` panics (`none`) instead
of returning a typed `MalformedFrame` error.  Moreover nothing checks the
header's payload-length word against the buffer: the reference frame with
its length field zeroed out still decodes successfully. -/
theorem decode_short_buffer (raw : List Nat) (h : raw.length < 88) :
    decode_rb_message raw = none ∧
    (decode_rb_message ((refFrame.set 4 0).set 5 0)).isSome = true := by
  exact ⟨by simp [decode_rb_message, if_pos h], by decide⟩

/-- Witness for C4 at the concrete 3-byte buffer `[0xB5, 0x62, 0xFF]`. -/
theorem decode_short_buffer_witness :
    ([0xB5, 0x62, 0xFF] : List Nat).length < 88 ∧
    (decode_rb_message [0xB5, 0x62, 0xFF] = none ∧
     (decode_rb_message ((refFrame.set 4 0).set 5 0)).isSome = true) :=
  ⟨by decide, decode_short_buffer [0xB5, 0x62, 0xFF] (by decide)⟩

/-- The reference frame with byte 28 (the `date_time_flags` byte) changed
from `0xEA` to `0xEB`, i.e. with its low bit set; the `lat_lon_flags` byte
(offset 72) is untouched and stays 0. -/
def frameOddDtf : List Nat :=
  refFrame.set 28 0xEB

/-- C5: `is_valid_position` is not a bit-test on `lat_lon_flags`: on the
record decoded from `frameOddDtf`, bit 0 of `lat_lon_flags` is 0 yet the
accessor returns `false`, because it actually tests bit 0 of
`date_time_flags`; on the reference record (identical `lat_lon_flags`) it
returns `true`, so the result depends on another field. -/
theorem is_valid_position_wrong_field :
    (decode_rb_message frameOddDtf).map RbMessage.lat_lon_flags = some 0 ∧
    (decode_rb_message frameOddDtf).map RbMessage.is_valid_position =
      some false ∧
    (decode_rb_message refFrame).map RbMessage.lat_lon_flags = some 0 ∧
    (decode_rb_message refFrame).map RbMessage.is_valid_position =
      some true := by
  decide

/-- C6: on the record decoded from the reference frame: `validity = 0x37`
gives valid-date, valid-time and fully-resolved true and
magnetic-declination false; `fix_status_flags = 1` gives valid-fix true,
differential-correction false and valid-heading false; and
`date_time_flags = 0xEA` gives confirmation-available false,
confirmed-date true and confirmed-time true. -/
theorem reference_frame_bitfields :
    decode_rb_message refFrame = some refRecord ∧
    refRecord.validity = 0x37 ∧
    refRecord.is_valid_date = true ∧
    refRecord.is_valid_time = true ∧
    refRecord.is_fully_resolved = true ∧
    refRecord.is_valid_magnetic_declination = false ∧
    refRecord.is_valid_fix = true ∧
    refRecord.is_differential_corrections_applied = false ∧
    refRecord.is_valid_heading = false ∧
    refRecord.date_time_flags = 0xEA ∧
    refRecord.is_confirmation_datetime_validity = false ∧
    refRecord.is_confirmed_utc_date_validty = true ∧
    refRecord.is_confirmed_utc_time_validty = true := by
  decide

/-! ## BLE session management (`src/connection.rs`)

The btleplug radio stack is an external collaborator: a peripheral is
embedded as its observable interface (advertised local name, connected
state, and the outcome a `connect()` attempt would have), an adapter as
its scan outcome and the peripherals visible after the dwell, and the
streaming environment as the outcomes of discovery, subscription and the
notification/sink interactions.  The control flow of `RbManager::new`,
`RbManager::connect` and `RbConnection::stream` is embedded from the
source. -/

/-- The error strings returned by `connection.rs`, as a typed taxonomy:
`noAdaptersFound` = "No adapters found", `failedToScan` = "Failed to scan
for adapters", `noDevicesFound` = "No devices found", `deviceNotFound` =
"failed to find racebox mini". -/
inductive RbErr where
  | noAdaptersFound
  | failedToScan
  | noDevicesFound
  | deviceNotFound
deriving DecidableEq, Repr

deriving instance DecidableEq for Except

/-- A discovered peripheral, seen through its btleplug interface:
`local_name` from `properties()` (`none` when the advertisement carried no
name), `is_connected` from `is_connected()`, and `connect_ok` the outcome
`peripheral.connect()` would report if invoked. -/
structure RbPeripheral where
  local_name : Option String
  is_connected : Bool
  connect_ok : Bool
deriving DecidableEq, Repr

/-- A radio adapter: whether `start_scan` succeeds, and the peripherals
`adapter.peripherals()` returns after the 10-second dwell. -/
structure RbAdapter where
  scan_ok : Bool
  peripherals : List RbPeripheral
deriving DecidableEq, Repr

/-- `RACEBOX_LOCAL_NAME_PREFIX` from the source (the device-family name
followed by a space). -/
def RACEBOX_LOCAL_NAME : String := "RaceBox Mini "

/-- The placeholder the source substitutes for a missing advertised name:
`unwrap_or_else(|| String::from("unknown name"))`. -/
def UNKNOWN_NAME : String := "unknown name"

/-- The advertised name `connect` works with: the peripheral's local name,
or `UNKNOWN_NAME` when absent. -/
def effectiveName (p : RbPeripheral) : String :=
  p.local_name.getD UNKNOWN_NAME

/-- `str::starts_with`, embedded structurally over the characters (the
advertised names here are ASCII, where Rust's byte-level comparison and
the character-level one agree). -/
def strStartsWith (s pre : String) : Bool :=
  pre.data.isPrefixOf s.data

/-- The suffix a successful `str::strip_prefix` leaves: the string minus
its first `n` characters. -/
def strDrop (s : String) (n : Nat) : String :=
  ⟨s.data.drop n⟩

/-- The loop body of `RbManager::new`: for each adapter in order,
`start_scan` (error `failedToScan` on failure), dwell, then overwrite the
`peripherals` variable with this adapter's result and return
`noDevicesFound` immediately if it is empty.  The accumulator argument is
the current value of the `peripherals` variable (initially `Vec::new()`).
On loop exit the last assignment is what the manager keeps. -/
def scanLoop : List RbAdapter → List RbPeripheral →
    Except RbErr (List RbPeripheral)
  | [], acc => Except.ok acc
  | a :: rest, _ =>
    if a.scan_ok = false then Except.error RbErr.failedToScan
    else if a.peripherals.isEmpty then Except.error RbErr.noDevicesFound
    else scanLoop rest a.peripherals

/-- Embeds `RbManager::new()` (the adapter/peripheral state it ends with):
`noAdaptersFound` when the adapter list is empty, otherwise the scan loop
over all adapters. -/
def rbManagerNew (adapters : List RbAdapter) :
    Except RbErr (List RbPeripheral) :=
  if adapters.isEmpty then Except.error RbErr.noAdaptersFound
  else scanLoop adapters []

/-- Embeds the loop of `RbManager::connect()`.  Returns the `serial` of the
resulting connection (or `deviceNotFound` after exhausting the list)
together with the list of peripherals on which `peripheral.connect()` was
actually invoked: a peripheral whose effective name lacks the prefix is
skipped with no call; a matching, already-connected peripheral is returned
without a call; otherwise `connect()` is called and on error the loop
continues. -/
def connectLoop : List RbPeripheral → Except RbErr String × List RbPeripheral
  | [] => (Except.error RbErr.deviceNotFound, [])
  | p :: rest =>
    let name := effectiveName p
    if strStartsWith name RACEBOX_LOCAL_NAME = false then connectLoop rest
    else if p.is_connected then
      (Except.ok (strDrop name RACEBOX_LOCAL_NAME.length), [])
    else if p.connect_ok then
      (Except.ok (strDrop name RACEBOX_LOCAL_NAME.length), [p])
    else
      let r := connectLoop rest
      (r.1, p :: r.2)

/-- A peripheral on which the source's match-and-connect sequence
succeeds: the advertised name starts with the device-family prefix and the
peripheral is already connected or its `connect()` succeeds. -/
def connectable (p : RbPeripheral) : Bool :=
  strStartsWith (effectiveName p) RACEBOX_LOCAL_NAME &&
    (p.is_connected || p.connect_ok)

/-- A concretely named matching peripheral used by the witnesses. -/
def matchingPeriph : RbPeripheral :=
  { local_name := some "RaceBox Mini ABC123"
    is_connected := false
    connect_ok := true }

/-- A peripheral whose advertised name lacks the prefix. -/
def otherPeriph : RbPeripheral :=
  { local_name := some "Garmin 530"
    is_connected := false
    connect_ok := true }

/-- C7: the `connect` loop returns the serial of the first connectable
peripheral — exactly the suffix of its advertised name after the
device-family prefix (`"RaceBox Mini ABC123"` yields `"ABC123"`) — and
every peripheral on which a `connect()` attempt is made has the prefix, so
a peripheral whose name lacks the prefix is skipped without any connect
attempt. -/
theorem connect_first_match_serial (pl : List RbPeripheral) :
    (connectLoop pl).1 =
      ((pl.find? connectable).elim (Except.error RbErr.deviceNotFound)
        (fun p => Except.ok
          (strDrop (effectiveName p) RACEBOX_LOCAL_NAME.length))) ∧
    ((connectLoop pl).2.all
      (fun p => strStartsWith (effectiveName p) RACEBOX_LOCAL_NAME)) = true ∧
    (connectLoop [matchingPeriph]).1 = Except.ok "ABC123" := by
  refine ⟨?_, ?_, by decide⟩
  · induction pl with
    | nil => rfl
    | cons p rest ih =>
      simp only [connectLoop, connectable, List.find?]
      by_cases hn : strStartsWith (effectiveName p) RACEBOX_LOCAL_NAME
      · simp only [hn, Bool.true_and, Bool.not_eq_false]
        by_cases hc : p.is_connected
        · simp [hn, hc]
        · by_cases hk : p.connect_ok
          · simp [hn, hc, hk]
          · simp [hn, hc, hk, ih]
      · simp only [Bool.not_eq_true] at hn
        simp [hn, ih]
  · induction pl with
    | nil => rfl
    | cons p rest ih =>
      simp only [connectLoop]
      by_cases hn : strStartsWith (effectiveName p) RACEBOX_LOCAL_NAME
      · by_cases hc : p.is_connected
        · simp [hn, hc]
        · by_cases hk : p.connect_ok
          · simp [hn, hc, hk]
          · simp [hn, hc, hk, ih]
      · simp only [Bool.not_eq_true] at hn
        simp [hn, ih]

/-- Witness for C7 at a concrete two-element peripheral list (one
non-matching name, one matching). -/
theorem connect_first_match_serial_witness :
    (connectLoop [otherPeriph, matchingPeriph]).1 =
      ((([otherPeriph, matchingPeriph].find? connectable).elim
        (Except.error RbErr.deviceNotFound))
        (fun p => Except.ok
          (strDrop (effectiveName p) RACEBOX_LOCAL_NAME.length))) ∧
    (([otherPeriph, matchingPeriph] : List RbPeripheral).all
      (fun p => strStartsWith (effectiveName p) RACEBOX_LOCAL_NAME)) = false ∧
    (connectLoop [otherPeriph, matchingPeriph]).1 = Except.ok "ABC123" :=
  ⟨(connect_first_match_serial [otherPeriph, matchingPeriph]).1,
   by decide, by decide⟩

/-- Characterization of the `RbManager::new` scan loop when every scan
succeeds: it errors with `noDevicesFound` as soon as any adapter's
peripheral set is empty, and otherwise keeps only the last adapter's
peripherals (the loop variable is overwritten each iteration). -/
theorem scanLoop_eq (adapters : List RbAdapter) (acc : List RbPeripheral)
    (h : ∀ a ∈ adapters, a.scan_ok = true) :
    scanLoop adapters acc =
      if adapters.any (fun a => a.peripherals.isEmpty) then
        Except.error RbErr.noDevicesFound
      else Except.ok ((adapters.map RbAdapter.peripherals).getLastD acc) := by
  induction adapters generalizing acc with
  | nil => rfl
  | cons a rest ih =>
    have ha : a.scan_ok = true := h a (List.mem_cons_self a rest)
    have hrest : ∀ b ∈ rest, b.scan_ok = true :=
      fun b hb => h b (List.mem_cons_of_mem a hb)
    simp only [scanLoop, ha, Bool.true_eq_false, if_false, List.any_cons,
      List.map_cons, List.getLastD_cons]
    by_cases he : a.peripherals.isEmpty
    · simp [he]
    · simp only [Bool.not_eq_true] at he
      simp [he, ih a.peripherals hrest]

/-- A scan-succeeding adapter that sees one matching peripheral. -/
def adapterA : RbAdapter :=
  ⟨true, [matchingPeriph]⟩

/-- A scan-succeeding adapter that sees one (non-matching) peripheral. -/
def adapterB : RbAdapter :=
  ⟨true, [otherPeriph]⟩

/-- A scan-succeeding adapter that sees no peripherals. -/
def adapterNone : RbAdapter :=
  ⟨true, []⟩

/-- C8 counterexample: with a first adapter that sees a peripheral and a
second that sees none, the peripheral set collected across the adapters is
nonempty, yet `RbManager::new` fails with `noDevicesFound` (the emptiness
check runs inside the per-adapter loop, before all adapters have been
scanned); and with two adapters that each see a different peripheral, the
manager keeps only the second adapter's peripheral — the sets are
overwritten, not collected. -/
theorem rbManagerNew_early_no_devices :
    rbManagerNew [adapterA, adapterNone] =
      Except.error RbErr.noDevicesFound ∧
    (adapterA.peripherals ++ adapterNone.peripherals).isEmpty = false ∧
    rbManagerNew [adapterB, adapterA] = Except.ok [matchingPeriph] ∧
    adapterB.peripherals ++ adapterA.peripherals =
      [otherPeriph, matchingPeriph] := by
  decide

/-- C8 (amended): `RbManager::new` fails with `noAdaptersFound` exactly
when the adapter list is empty; otherwise (when every scan succeeds) it
fails with `noDevicesFound` as soon as any single adapter's visible
peripheral set is empty — even if other adapters saw peripherals — and on
success retains only the last adapter's peripheral set. -/
theorem rbManagerNew_per_adapter (adapters : List RbAdapter)
    (h : adapters.all (fun a => a.scan_ok) = true) :
    rbManagerNew adapters =
      if adapters.isEmpty then Except.error RbErr.noAdaptersFound
      else if adapters.any (fun a => a.peripherals.isEmpty) then
        Except.error RbErr.noDevicesFound
      else Except.ok ((adapters.map RbAdapter.peripherals).getLastD []) := by
  rw [List.all_eq_true] at h
  by_cases he : adapters.isEmpty
  · simp only [rbManagerNew, he, if_true]
  · simp only [rbManagerNew, he, if_false]
    exact scanLoop_eq adapters [] fun a ha => h a ha

/-- Witness for the amended C8 at the concrete one-adapter list
`[adapterA]`. -/
theorem rbManagerNew_per_adapter_witness :
    ([adapterA].all (fun a => a.scan_ok)) = true ∧
    rbManagerNew [adapterA] =
      if ([adapterA] : List RbAdapter).isEmpty then
        Except.error RbErr.noAdaptersFound
      else if ([adapterA] : List RbAdapter).any
          (fun a => a.peripherals.isEmpty) then
        Except.error RbErr.noDevicesFound
      else Except.ok ((([adapterA] : List RbAdapter).map
        RbAdapter.peripherals).getLastD []) :=
  ⟨by decide, rbManagerNew_per_adapter [adapterA] (by decide)⟩

/-! ## `RbConnection::stream` -/

/-- `TX_CHAR`, the notify-role characteristic identifier. -/
def TX_CHAR : String := "6E400003-B5A3-F393-E0A9-E50E24DCCA9E"

/-- A GATT characteristic as `stream` sees it: its identifier and whether
its property set contains `CharPropFlags::NOTIFY`. -/
structure BleCharacteristic where
  uuid : String
  notify : Bool
deriving DecidableEq, Repr

/-- The radio-layer environment of one `stream` call: whether
`discover_services` succeeds, the discovered characteristics, whether
`subscribe` and `notifications` succeed on the TX characteristic, the
finite sequence of values the notification source produces before it
closes, and how many items the `mpsc` sink still accepts before its
consumer is gone. -/
structure StreamEnv where
  discover_ok : Bool
  characteristics : List BleCharacteristic
  subscribe_ok : Bool
  notify_stream_ok : Bool
  notifications : List (List Nat)
  sink_accepts : Nat
deriving DecidableEq, Repr

/-- How one `stream` call ends: the process crashes on a `panic!`, the
function returns `Ok(())`, or an error value is returned to the caller
via the `?` operator. -/
inductive StreamOutcome where
  | crashed
  | ok
  | errReturned
deriving DecidableEq, Repr

/-- The send loop: forwards each notification into the sink, which accepts
`k` more items; `false` when a send fails (consumer gone). -/
def sendAll : List (List Nat) → Nat → Bool
  | [], _ => true
  | _ :: rest, k + 1 => sendAll rest k
  | _ :: _, 0 => false

/-- The `for characteristic in ...` loop of `stream`: on a characteristic
with the TX identifier and the NOTIFY property it subscribes (`?` on
failure), obtains the notification stream (`?` on failure), and forwards
every value into the sink (`?` on a failed send); other characteristics
are skipped, and falling off the loop returns `Ok(())`. -/
def charLoop (env : StreamEnv) : List BleCharacteristic → StreamOutcome
  | [] => StreamOutcome.ok
  | c :: rest =>
    if c.uuid = TX_CHAR ∧ c.notify = true then
      if env.subscribe_ok = false then StreamOutcome.errReturned
      else if env.notify_stream_ok = false then StreamOutcome.errReturned
      else if sendAll env.notifications env.sink_accepts then
        charLoop env rest
      else StreamOutcome.errReturned
    else charLoop env rest

/-- Embeds `RbConnection::stream`: when `discover_services` fails the
source executes `panic!("Couldn't discover services, fix this panic
please")` — the process crashes; otherwise it runs the characteristic
loop. -/
def streamRun (env : StreamEnv) : StreamOutcome :=
  if env.discover_ok = false then StreamOutcome.crashed
  else charLoop env env.characteristics

/-- A stream environment whose service discovery fails. -/
def envDiscoveryFails : StreamEnv :=
  ⟨false, [⟨TX_CHAR, true⟩], true, true, [], 0⟩

/-- A healthy environment whose sink no longer accepts items (consumer
gone) while a notification is pending. -/
def envSinkClosed : StreamEnv :=
  ⟨true, [⟨TX_CHAR, true⟩], true, true, [[0x00]], 0⟩

/-- A healthy environment whose notification source closes after one value
the sink accepts. -/
def envSourceCloses : StreamEnv :=
  ⟨true, [⟨TX_CHAR, true⟩], true, true, [[0x00]], 1⟩

/-- C9: evaluating `stream` over the embedded environments: when service
discovery is not possible the source panics (crashing the process) instead
of returning a `ServiceDiscoveryFailed` error; when the sink cannot accept
further items the loop does return an error to the caller, and when the
notification source closes it returns control with `Ok(())`. -/
theorem stream_discovery_panics :
    streamRun envDiscoveryFails = StreamOutcome.crashed ∧
    streamRun envSinkClosed = StreamOutcome.errReturned ∧
    streamRun envSourceCloses = StreamOutcome.ok := by
  decide

end RbMini
